import Mathlib

/-!
# Loopback tester of the XDMA driver utility

A shallow embedding of `fpga/alveo-u250/xdma-driver/driver.cc`.  The program is a
single `main` that talks to the operating system through `open`, `pwrite`,
`pread` and `close`.  The operating system is a parameter of the model (a record
of state-passing functions), so `main` can be run against scripted call outcomes
as well as against a byte store.  Bytes are natural numbers, `int`, `ssize_t`
and `off_t` values are integers.
-/

set_option maxRecDepth 20000

namespace XdmaDriver

/-! ## Data model -/

/-- The operating system as seen by `main`: every call takes the current state of
the world and returns its C return value with the next state.  `pread` also
returns the bytes it deposits at the start of the destination buffer. -/
structure Sys (σ : Type) where
  sys_open : String → Nat → Nat → σ → Int × σ
  pwrite : Int → List Nat → Nat → Int → σ → Int × σ
  pread : Int → Nat → Int → σ → (Int × List Nat) × σ
  close : Int → σ → Int × σ

/-- What `main` does that is visible from outside, in program order: the four
kinds of system call with their arguments (and return value), and the lines sent
to the console.  A `stdout` event carries the literal text, the integers and the
characters printed; a character read outside its buffer is `none`. -/
inductive Event where
  | sys_open (path : String) (flags mode : Nat) (ret : Int)
  | sys_pwrite (fd : Int) (buf : List Nat) (count : Nat) (off : Int) (ret : Int)
  | sys_pread (fd : Int) (count : Nat) (off : Int) (ret : Int)
  | sys_close (fd : Int)
  | stderr (msg : String)
  | stdout (text : String) (ints : List Int) (chars : List (Option Nat))
  deriving DecidableEq

/-- The three places of `main` that touch `read_data`. -/
inductive Site where
  | preadDst
  | printStr
  | printLoop
  deriving DecidableEq

/-- The outcome of one run of `main`. -/
structure Result (σ : Type) where
  code : Int
  trace : List Event
  read_data : Option (List Nat)
  accesses : List (Site × Nat)
  world : σ

/-! ## Constants of the source -/

/-- Value of `O_RDONLY` in `fcntl.h`. -/
def O_RDONLY : Nat := 0

/-- Value of `O_WRONLY` in `fcntl.h`. -/
def O_WRONLY : Nat := 1

/-- The 64 characters of the string literal that initialises `data`. -/
def pattern : List Nat :=
  "CAFFCCFFDFCDBFCFCBFFCCFFDFCDBFCFCBFFCCFFDFCDBFCFCBFFCCFFDFCDBFCF".toList.map Char.toNat

/-- Declared size of `char data[65]`. -/
def data_size : Nat := 65

/-- The array `char data[65] = "CAFF..."`: the characters of the literal, the rest
of the 65 bytes zero. -/
def data : List Nat := pattern ++ List.replicate (data_size - pattern.length) 0

/-- Declared size of `char read_data[64]`. -/
def read_data_size : Nat := 64

/-- The constant `off_t offset = 0x2000`. -/
def offset : Int := 0x2000

/-- The path `filePath`. -/
def filePath : String := "/dev/xdma0_h2c_0"

/-- The path `read_filePath`. -/
def read_filePath : String := "/dev/xdma0_c2h_0"

/-! ## Library functions used by `main` -/

/-- C `strlen`: the number of bytes before the first zero byte. -/
def strlen : List Nat → Nat
  | [] => 0
  | b :: bs => if b = 0 then 0 else strlen bs + 1

/-- The indices a `%s` conversion reads from a buffer: 0, 1, ... up to and
including the index of the first zero byte.  When the buffer holds no zero byte
the scan leaves the buffer; the model records that first index past the end and
stops there, as what lies beyond is not part of the buffer. -/
def strScan : List Nat → Nat → List Nat
  | [], i => [i]
  | b :: bs, i => if b = 0 then [i] else i :: strScan bs (i + 1)

/-- The characters a `%s` conversion prints from a buffer. -/
def strChars : List Nat → List (Option Nat)
  | [] => [none]
  | b :: bs => if b = 0 then [] else some b :: strChars bs

/-- The destination buffer after the kernel deposited `bytes` (at most `count` of
them) at its start. -/
def deposit (buf bytes : List Nat) (count : Nat) : List Nat :=
  (bytes.take count).take buf.length ++ buf.drop (bytes.take count).length

/-! ## The program -/

/-- The function `main` of `driver.cc`, run against the operating system `sys` from
the state `s0`.  `uninit` gives the indeterminate initial bytes of the local
array `read_data`.  The text of `strerror(errno)` and the printed pointer value
are not modelled. -/
def main {σ : Type} (sys : Sys σ) (s0 : σ) (uninit : Nat → Nat) : Result σ :=
  let t0 : List Event := [Event.stdout "strnlen(data): %d\n" [strlen data] []]
  let r1 := sys.sys_open filePath O_WRONLY 0o644 s0
  let fd := r1.1
  let t1 := t0 ++ [Event.sys_open filePath O_WRONLY 0o644 fd]
  if fd = -1 then
    { code := 1, trace := t1 ++ [Event.stderr "Error opening file: "],
      read_data := none, accesses := [], world := r1.2 }
  else
    let t2 := t1 ++ [Event.stdout "write fd: %d\n" [fd] []]
    let r2 := sys.pwrite fd data (strlen data) offset r1.2
    let bytesWritten := r2.1
    let t3 := t2 ++ [Event.sys_pwrite fd data (strlen data) offset bytesWritten]
    if bytesWritten = -1 then
      let r3 := sys.close fd r2.2
      { code := 1,
        trace := t3 ++ [Event.stderr "Error writing to file: ", Event.sys_close fd],
        read_data := none, accesses := [], world := r3.2 }
    else
      let t4 := t3 ++ [Event.stdout "%s\n" [] (strChars data),
        Event.stdout "Wrote %d bytes to /dev/xdma0_h2c_0 at offset %d.\n"
          [bytesWritten, offset] []]
      let r4 := sys.sys_open read_filePath O_RDONLY 0o644 r2.2
      let rd_fd := r4.1
      let t5 := t4 ++ [Event.sys_open read_filePath O_RDONLY 0o644 rd_fd]
      if rd_fd = -1 then
        { code := 1, trace := t5 ++ [Event.stderr "Error opening file: "],
          read_data := none, accesses := [], world := r4.2 }
      else
        let read_data0 : List Nat := (List.range read_data_size).map uninit
        let r5 := sys.pread rd_fd (strlen data) offset r4.2
        let bytesRead := r5.1.1
        let read_data1 := deposit read_data0 r5.1.2 (strlen data)
        let a5 := (List.range (strlen data)).map (fun i => (Site.preadDst, i))
        let t6 := t5 ++ [Event.sys_pread rd_fd (strlen data) offset bytesRead]
        if bytesRead = -1 then
          let r6 := sys.close rd_fd r5.2
          { code := 1,
            trace := t6 ++ [Event.stderr "Error writing to file: ", Event.sys_close rd_fd],
            read_data := some read_data1, accesses := a5, world := r6.2 }
        else
          let t7 := t6 ++ [
            Event.stdout "Read %d bytes from /dev/xdma0_c2h_0 at offset %d.\n"
              [bytesRead, offset] [],
            Event.stdout "read_data %s\n" [] (strChars read_data1),
            Event.stdout "read_data ptr: %p\n" [] []]
          let a6 := a5 ++ (strScan read_data1 0).map (fun i => (Site.printStr, i))
          let t8 := t7 ++ (List.range 128).map
            (fun i => Event.stdout "%c" [] [read_data1.get? i])
          let a7 := a6 ++ (List.range 128).map (fun i => (Site.printLoop, i))
          { code := 0, trace := t8 ++ [Event.stdout "\n" [] []],
            read_data := some read_data1, accesses := a7, world := r5.2 }

/-! ## Operating systems to run `main` against -/

/-- An operating system whose four calls return fixed outcomes: `ow` for the open
of the write path, `pw` for `pwrite`, `orr` for the open of the read path, and
`pr` with the deposited bytes `bytes` for `pread`. -/
def scripted (ow pw orr pr : Int) (bytes : List Nat) : Sys Unit where
  sys_open path _ _ s := (if path = filePath then ow else orr, s)
  pwrite _ _ _ _ s := (pw, s)
  pread _ _ _ s := ((pr, bytes), s)
  close _ s := (0, s)

/-- A byte-addressed backing store with loopback: `put` stores bytes at an offset,
`get` returns the given number of bytes found at an offset, and reading back the
place just written returns the bytes written. -/
structure Store (β : Type) where
  put : β → Int → List Nat → β
  get : β → Int → Nat → List Nat
  get_put : ∀ (b : β) (off : Int) (bytes : List Nat),
    get (put b off bytes) off bytes.length = bytes

/-- The operating system over a backing store that stands for both device paths.
The state is the store and the next free descriptor.  An open succeeds with the
next descriptor; a positioned write of `count` bytes stores the first `count`
bytes of the buffer and returns `count`; a positioned read of `count` bytes
deposits the bytes stored at the offset and returns `count`. -/
def loopback {β : Type} (st : Store β) : Sys (β × Nat) where
  sys_open _ _ _ w := ((w.2 : Int), (w.1, w.2 + 1))
  pwrite _ buf count off w := ((count : Int), (st.put w.1 off (buf.take count), w.2))
  pread _ count off w := (((count : Int), st.get w.1 off count), w)
  close _ w := (0, w)

/-- A store kept as a function from addresses to bytes. -/
def memStore : Store (Int → Nat) where
  put m off bytes := fun a =>
    if off ≤ a ∧ a < off + bytes.length then bytes.getD (a - off).toNat 0 else m a
  get m off n := (List.range n).map fun (i : Nat) => m (off + (i : Int))
  get_put := by
    intro m off bytes
    apply List.ext_getElem
    · simp
    · intro i h1 h2
      simp at h1
      simp [h1]

/-! ## Predicates on traces -/

/-- An `open`, `pwrite` or `pread` call that reported failure, i.e. returned -1. -/
def Event.failed : Event → Bool
  | .sys_open _ _ _ ret => decide (ret = -1)
  | .sys_pwrite _ _ _ _ ret => decide (ret = -1)
  | .sys_pread _ _ _ ret => decide (ret = -1)
  | _ => false

/-- The system calls of a trace, console output dropped. -/
def syscalls (t : List Event) : List Event :=
  t.filter fun e =>
    match e with
    | .stderr _ => false
    | .stdout _ _ _ => false
    | _ => true

/-- The descriptors passed to `close`, in order. -/
def closes (t : List Event) : List Int :=
  t.filterMap fun e =>
    match e with
    | .sys_close fd => some fd
    | _ => none

/-- The descriptors returned by successful `open` calls, in order. -/
def opened (t : List Event) : List Int :=
  t.filterMap fun e =>
    match e with
    | .sys_open _ _ _ ret => if ret = -1 then none else some ret
    | _ => none

/-! ## Basic facts about the constants -/

theorem pattern_eq : pattern =
    [67, 65, 70, 70, 67, 67, 70, 70, 68, 70, 67, 68, 66, 70, 67, 70,
     67, 66, 70, 70, 67, 67, 70, 70, 68, 70, 67, 68, 66, 70, 67, 70,
     67, 66, 70, 70, 67, 67, 70, 70, 68, 70, 67, 68, 66, 70, 67, 70,
     67, 66, 70, 70, 67, 67, 70, 70, 68, 70, 67, 68, 66, 70, 67, 70] := by
  decide

theorem pattern_length : pattern.length = 64 := by
  rw [pattern_eq]; rfl

theorem data_length : data.length = 65 := by
  simp [data, pattern_length, data_size]

theorem strlen_data : strlen data = 64 := by
  rw [data, pattern_eq]; decide

@[simp] theorem failed_open (p : String) (f m : Nat) (r : Int) :
    (Event.sys_open p f m r).failed = decide (r = -1) := rfl

@[simp] theorem failed_pwrite (fd : Int) (b : List Nat) (c : Nat) (o r : Int) :
    (Event.sys_pwrite fd b c o r).failed = decide (r = -1) := rfl

@[simp] theorem failed_pread (fd : Int) (c : Nat) (o r : Int) :
    (Event.sys_pread fd c o r).failed = decide (r = -1) := rfl

@[simp] theorem failed_close (fd : Int) : (Event.sys_close fd).failed = false := rfl

@[simp] theorem failed_stderr (m : String) : (Event.stderr m).failed = false := rfl

@[simp] theorem failed_stdout (t : String) (l : List Int) (c : List (Option Nat)) :
    (Event.stdout t l c).failed = false := rfl

/-! ## The five runs of `main` -/

theorem paths_ne : read_filePath ≠ filePath := by decide

/-- Every run of `main` has one of five shapes, told apart by the outcomes `ow`,
`pw`, `orr`, `pr` of the open of the write path, the `pwrite`, the open of the read
path and the `pread`. -/
theorem main_cases {σ : Type} (sys : Sys σ) (s : σ) (u : Nat → Nat) :
    ∃ ow pw orr pr : Int,
      (ow = -1 ∧ (main sys s u).code = 1 ∧
        syscalls (main sys s u).trace = [Event.sys_open filePath O_WRONLY 0o644 ow]) ∨
      (ow ≠ -1 ∧ pw = -1 ∧ (main sys s u).code = 1 ∧
        syscalls (main sys s u).trace =
          [Event.sys_open filePath O_WRONLY 0o644 ow,
           Event.sys_pwrite ow data 64 0x2000 pw,
           Event.sys_close ow]) ∨
      (ow ≠ -1 ∧ pw ≠ -1 ∧ orr = -1 ∧ (main sys s u).code = 1 ∧
        syscalls (main sys s u).trace =
          [Event.sys_open filePath O_WRONLY 0o644 ow,
           Event.sys_pwrite ow data 64 0x2000 pw,
           Event.sys_open read_filePath O_RDONLY 0o644 orr]) ∨
      (ow ≠ -1 ∧ pw ≠ -1 ∧ orr ≠ -1 ∧ pr = -1 ∧ (main sys s u).code = 1 ∧
        syscalls (main sys s u).trace =
          [Event.sys_open filePath O_WRONLY 0o644 ow,
           Event.sys_pwrite ow data 64 0x2000 pw,
           Event.sys_open read_filePath O_RDONLY 0o644 orr,
           Event.sys_pread orr 64 0x2000 pr,
           Event.sys_close orr]) ∨
      (ow ≠ -1 ∧ pw ≠ -1 ∧ orr ≠ -1 ∧ pr ≠ -1 ∧ (main sys s u).code = 0 ∧
        syscalls (main sys s u).trace =
          [Event.sys_open filePath O_WRONLY 0o644 ow,
           Event.sys_pwrite ow data 64 0x2000 pw,
           Event.sys_open read_filePath O_RDONLY 0o644 orr,
           Event.sys_pread orr 64 0x2000 pr]) := by
  refine ⟨(sys.sys_open filePath O_WRONLY 0o644 s).1,
    (sys.pwrite (sys.sys_open filePath O_WRONLY 0o644 s).1 data (strlen data) offset
      (sys.sys_open filePath O_WRONLY 0o644 s).2).1,
    (sys.sys_open read_filePath O_RDONLY 0o644
      (sys.pwrite (sys.sys_open filePath O_WRONLY 0o644 s).1 data (strlen data) offset
        (sys.sys_open filePath O_WRONLY 0o644 s).2).2).1,
    (sys.pread
      (sys.sys_open read_filePath O_RDONLY 0o644
        (sys.pwrite (sys.sys_open filePath O_WRONLY 0o644 s).1 data (strlen data) offset
          (sys.sys_open filePath O_WRONLY 0o644 s).2).2).1
      (strlen data) offset
      (sys.sys_open read_filePath O_RDONLY 0o644
        (sys.pwrite (sys.sys_open filePath O_WRONLY 0o644 s).1 data (strlen data) offset
          (sys.sys_open filePath O_WRONLY 0o644 s).2).2).2).1.1, ?_⟩
  unfold main
  simp only [strlen_data, offset]
  split_ifs with h1 h2 h3 h4 <;> simp [*, syscalls]

theorem closes_syscalls (t : List Event) : closes (syscalls t) = closes t := by
  induction t with
  | nil => rfl
  | cons e t ih =>
    cases e <;> simp_all [closes, syscalls, List.filterMap_cons, List.filter_cons]

theorem opened_syscalls (t : List Event) : opened (syscalls t) = opened t := by
  induction t with
  | nil => rfl
  | cons e t ih =>
    cases e <;> simp_all [opened, syscalls, List.filterMap_cons, List.filter_cons]

/-! ## Exit codes -/

/-- C1: for every operating system and starting state, hence for every combination
of outcomes of the calls, `main` returns 0 or 1; it returns 0 exactly when none of
the calls it made reported failure, and 1 exactly when one of them did. -/
theorem exit_code_by_failures {σ : Type} (sys : Sys σ) (s : σ) (u : Nat → Nat) :
    ((main sys s u).code = 0 ∨ (main sys s u).code = 1) ∧
    ((main sys s u).code = 0 ↔ ∀ e ∈ (main sys s u).trace, e.failed = false) ∧
    ((main sys s u).code = 1 ↔ ∃ e ∈ (main sys s u).trace, e.failed = true) := by
  unfold main
  simp only []
  split_ifs with h1 h2 h3 h4 <;> simp [*]
  rintro a (⟨i, -, rfl⟩ | rfl) <;> rfl

/-- C1 at the run where all four calls succeed (exit code 0) and at the run where
the `pread` reports failure (exit code 1). -/
theorem exit_code_by_failures_witness :
    (main (scripted 3 64 4 64 pattern) () (fun _ => 0)).code = 0 ∧
    ((main (scripted 3 64 4 (-1) []) () (fun _ => 0)).code = 1 ↔
      ∃ e ∈ (main (scripted 3 64 4 (-1) []) () (fun _ => 0)).trace, e.failed = true) :=
  ⟨by simp [main, scripted, paths_ne],
   (exit_code_by_failures (scripted 3 64 4 (-1) []) () (fun _ => 0)).2.2⟩

/-! ## Failure of an open -/

/-- C5: when the open of the write path returns -1, `main` returns 1 and that open
is the only system call of the run: no `pwrite`, no second open, no `pread`. -/
theorem open_write_failure {σ : Type} (sys : Sys σ) (s : σ) (u : Nat → Nat)
    (h : (sys.sys_open filePath O_WRONLY 0o644 s).1 = -1) :
    (main sys s u).code = 1 ∧
    syscalls (main sys s u).trace = [Event.sys_open filePath O_WRONLY 0o644 (-1)] := by
  unfold main
  simp [h, syscalls]

/-- C5 at a run whose first open fails while every later call would succeed. -/
theorem open_write_failure_witness :
    ((scripted (-1) 64 4 64 pattern).sys_open filePath O_WRONLY 0o644 ()).1 = -1 ∧
    (main (scripted (-1) 64 4 64 pattern) () (fun _ => 0)).code = 1 ∧
    syscalls (main (scripted (-1) 64 4 64 pattern) () (fun _ => 0)).trace =
      [Event.sys_open filePath O_WRONLY 0o644 (-1)] :=
  ⟨by simp [scripted],
    open_write_failure (scripted (-1) 64 4 64 pattern) () (fun _ => 0) (by simp [scripted])⟩

/-- C6: on the run where the write path opens as descriptor 3, `pwrite` returns 64
and the open of the read path returns -1, `main` returns 1 without a `pread`, and
without any `close`: descriptor 3 is still open when `main` returns. -/
theorem open_read_failure_leaves_write_fd_open :
    (main (scripted 3 64 (-1) 64 pattern) () (fun _ => 0)).code = 1 ∧
    syscalls (main (scripted 3 64 (-1) 64 pattern) () (fun _ => 0)).trace =
      [Event.sys_open filePath O_WRONLY 0o644 3,
       Event.sys_pwrite 3 data 64 0x2000 64,
       Event.sys_open read_filePath O_RDONLY 0o644 (-1)] ∧
    opened (main (scripted 3 64 (-1) 64 pattern) () (fun _ => 0)).trace = [3] ∧
    closes (main (scripted 3 64 (-1) 64 pattern) () (fun _ => 0)).trace = [] := by
  simp [main, scripted, syscalls, opened, closes, strlen_data, offset, filePath, read_filePath]

/-! ## Short transfers -/

/-- C7, as stated, fails: on the run where `pwrite` returns 10 (fewer than the 64
bytes requested) and the other calls succeed, `main` goes on to the `pread` and
returns 0. -/
theorem short_write_exits_zero :
    (0 : Int) ≤ 10 ∧ (10 : Int) < 64 ∧
    (main (scripted 3 10 4 64 pattern) () (fun _ => 0)).code = 0 ∧
    syscalls (main (scripted 3 10 4 64 pattern) () (fun _ => 0)).trace =
      [Event.sys_open filePath O_WRONLY 0o644 3,
       Event.sys_pwrite 3 data 64 0x2000 10,
       Event.sys_open read_filePath O_RDONLY 0o644 4,
       Event.sys_pread 4 64 0x2000 64] := by
  simp [main, scripted, syscalls, strlen_data, offset, filePath, read_filePath]

/-- C7, amended: a `pwrite` return value `n` with `0 ≤ n < 64` is not treated as a
failure.  `main` then opens the read path, and it returns 0 exactly when that open
and the `pread` after it both return something other than -1. -/
theorem short_write_not_detected {σ : Type} (sys : Sys σ) (s : σ) (u : Nat → Nat)
    (fd : Int) (buf : List Nat) (cnt : Nat) (off n : Int)
    (hw : Event.sys_pwrite fd buf cnt off n ∈ syscalls (main sys s u).trace)
    (h0 : 0 ≤ n) (h64 : n < 64) :
    (∃ rd_fd, Event.sys_open read_filePath O_RDONLY 0o644 rd_fd ∈
        syscalls (main sys s u).trace) ∧
    ((main sys s u).code = 0 ↔
      ∃ rd_fd c o r, rd_fd ≠ -1 ∧ r ≠ -1 ∧
        Event.sys_open read_filePath O_RDONLY 0o644 rd_fd ∈ syscalls (main sys s u).trace ∧
        Event.sys_pread rd_fd c o r ∈ syscalls (main sys s u).trace) := by
  have hn : n ≠ -1 := by omega
  obtain ⟨ow, pw, orr, pr, hc⟩ := main_cases sys s u
  rcases hc with ⟨h1, hcode, ht⟩ | ⟨h1, h2, hcode, ht⟩ | ⟨h1, h2, h3, hcode, ht⟩ |
    ⟨h1, h2, h3, h4, hcode, ht⟩ | ⟨h1, h2, h3, h4, hcode, ht⟩ <;>
    rw [ht] at hw ⊢ <;> rw [hcode] <;> simp [paths_ne] at hw ⊢
  · exact hn (hw.2.2.2.2.trans h2)
  · rintro x - c o r hr - - - rfl
    exact hr h4
  · exact ⟨orr, h3, 64, 8192, pr, h4, rfl, rfl, rfl, rfl⟩

/-- C7 amended, at the run where `pwrite` returns 10 and every other call succeeds. -/
theorem short_write_not_detected_witness :
    (∃ rd_fd, Event.sys_open read_filePath O_RDONLY 0o644 rd_fd ∈
        syscalls (main (scripted 3 10 4 64 pattern) () (fun _ => 0)).trace) ∧
    ((main (scripted 3 10 4 64 pattern) () (fun _ => 0)).code = 0 ↔
      ∃ rd_fd c o r, rd_fd ≠ -1 ∧ r ≠ -1 ∧
        Event.sys_open read_filePath O_RDONLY 0o644 rd_fd ∈
          syscalls (main (scripted 3 10 4 64 pattern) () (fun _ => 0)).trace ∧
        Event.sys_pread rd_fd c o r ∈
          syscalls (main (scripted 3 10 4 64 pattern) () (fun _ => 0)).trace) :=
  short_write_not_detected (scripted 3 10 4 64 pattern) () (fun _ => 0) 3 data 64 0x2000 10
    (by simp [main, scripted, syscalls, strlen_data, offset, filePath, read_filePath])
    (by decide) (by decide)

/-- C8, as stated, fails: on the run where `pread` returns 10 (fewer than the 64
bytes requested) and the other calls succeed, `main` returns 0. -/
theorem short_read_exits_zero :
    (0 : Int) ≤ 10 ∧ (10 : Int) < 64 ∧
    (main (scripted 3 64 4 10 (pattern.take 10)) () (fun _ => 0)).code = 0 ∧
    syscalls (main (scripted 3 64 4 10 (pattern.take 10)) () (fun _ => 0)).trace =
      [Event.sys_open filePath O_WRONLY 0o644 3,
       Event.sys_pwrite 3 data 64 0x2000 64,
       Event.sys_open read_filePath O_RDONLY 0o644 4,
       Event.sys_pread 4 64 0x2000 10] := by
  simp [main, scripted, syscalls, strlen_data, offset, filePath, read_filePath]

/-- C8, amended: a `pread` return value `n` with `0 ≤ n < 64` is not treated as a
failure: `main` returns 0, and the `pread` is the last system call of the run. -/
theorem short_read_not_detected {σ : Type} (sys : Sys σ) (s : σ) (u : Nat → Nat)
    (fd : Int) (cnt : Nat) (off n : Int)
    (hr : Event.sys_pread fd cnt off n ∈ syscalls (main sys s u).trace)
    (h0 : 0 ≤ n) (h64 : n < 64) :
    (main sys s u).code = 0 ∧
    (syscalls (main sys s u).trace).getLast? = some (Event.sys_pread fd cnt off n) := by
  have hn : n ≠ -1 := by omega
  obtain ⟨ow, pw, orr, pr, hc⟩ := main_cases sys s u
  rcases hc with ⟨h1, hcode, ht⟩ | ⟨h1, h2, hcode, ht⟩ | ⟨h1, h2, h3, hcode, ht⟩ |
    ⟨h1, h2, h3, h4, hcode, ht⟩ | ⟨h1, h2, h3, h4, hcode, ht⟩ <;>
    rw [ht] at hr ⊢ <;> rw [hcode] <;> simp at hr ⊢
  · exact hn (hr.2.2.2.trans h4)
  · obtain ⟨rfl, rfl, rfl, rfl⟩ := hr
    exact ⟨rfl, rfl, rfl, rfl⟩

/-- C8 amended, at the run where `pread` returns 10 and every other call succeeds. -/
theorem short_read_not_detected_witness :
    (main (scripted 3 64 4 10 (pattern.take 10)) () (fun _ => 0)).code = 0 ∧
    (syscalls (main (scripted 3 64 4 10 (pattern.take 10)) () (fun _ => 0)).trace).getLast? =
      some (Event.sys_pread 4 64 0x2000 10) :=
  short_read_not_detected (scripted 3 64 4 10 (pattern.take 10)) () (fun _ => 0) 4 64 0x2000 10
    (by simp [main, scripted, syscalls, strlen_data, offset, filePath, read_filePath])
    (by decide) (by decide)

/-! ## Arguments of the two transfers -/

/-- C9: whenever a run issues both a `pwrite` and a `pread`, the `pwrite` request is
`(data, 64, 0x2000)`, whose 64 bytes are the pattern, and the `pread` request is
`(64, 0x2000)`: same offset, same length. -/
theorem transfers_same_offset_and_length {σ : Type} (sys : Sys σ) (s : σ) (u : Nat → Nat)
    (wfd : Int) (buf : List Nat) (wcnt : Nat) (woff wret : Int)
    (rfd : Int) (rcnt : Nat) (roff rret : Int)
    (hw : Event.sys_pwrite wfd buf wcnt woff wret ∈ (main sys s u).trace)
    (hr : Event.sys_pread rfd rcnt roff rret ∈ (main sys s u).trace) :
    woff = 0x2000 ∧ roff = 0x2000 ∧ wcnt = 64 ∧ rcnt = 64 ∧ strlen data = 64 ∧
    buf.take wcnt = pattern ∧ woff = roff ∧ wcnt = rcnt := by
  have hw1 : Event.sys_pwrite wfd buf wcnt woff wret ∈ syscalls (main sys s u).trace := by
    simp [syscalls, hw]
  have hr1 : Event.sys_pread rfd rcnt roff rret ∈ syscalls (main sys s u).trace := by
    simp [syscalls, hr]
  have hd : data.take 64 = pattern := by
    rw [data, ← pattern_length, List.take_left]
  obtain ⟨ow, pw, orr, pr, hc⟩ := main_cases sys s u
  rcases hc with ⟨h1, hcode, ht⟩ | ⟨h1, h2, hcode, ht⟩ | ⟨h1, h2, h3, hcode, ht⟩ |
    ⟨h1, h2, h3, h4, hcode, ht⟩ | ⟨h1, h2, h3, h4, hcode, ht⟩ <;>
    rw [ht] at hw1 hr1 <;> simp at hw1 hr1 <;>
    obtain ⟨-, rfl, rfl, rfl, -⟩ := hw1 <;> obtain ⟨-, rfl, rfl, -⟩ := hr1 <;>
    simp [strlen_data, hd]

/-- C9 at the run where all four calls succeed. -/
theorem transfers_same_offset_and_length_witness :
    Event.sys_pwrite 3 data 64 0x2000 64 ∈
      (main (scripted 3 64 4 64 pattern) () (fun _ => 0)).trace ∧
    Event.sys_pread 4 64 0x2000 64 ∈
      (main (scripted 3 64 4 64 pattern) () (fun _ => 0)).trace ∧
    (0x2000 : Int) = 0x2000 ∧ (0x2000 : Int) = 0x2000 ∧ 64 = 64 ∧ 64 = 64 ∧
    strlen data = 64 ∧ data.take 64 = pattern ∧ (0x2000 : Int) = 0x2000 ∧ 64 = 64 :=
  ⟨by simp [main, scripted, strlen_data, offset, filePath, read_filePath],
   by simp [main, scripted, strlen_data, offset, filePath, read_filePath],
   transfers_same_offset_and_length (scripted 3 64 4 64 pattern) () (fun _ => 0)
    3 data 64 0x2000 64 4 64 0x2000 64
    (by simp [main, scripted, strlen_data, offset, filePath, read_filePath])
    (by simp [main, scripted, strlen_data, offset, filePath, read_filePath])⟩

/-! ## Closing of descriptors -/

/-- C3, as stated, fails: on the run where all four calls succeed, the opens return
descriptors 3 and 4, and `main` returns without a single `close`. -/
theorem success_run_closes_nothing :
    (main (scripted 3 64 4 64 pattern) () (fun _ => 0)).code = 0 ∧
    opened (main (scripted 3 64 4 64 pattern) () (fun _ => 0)).trace = [3, 4] ∧
    closes (main (scripted 3 64 4 64 pattern) () (fun _ => 0)).trace = [] ∧
    ¬ (∀ fd ∈ opened (main (scripted 3 64 4 64 pattern) () (fun _ => 0)).trace,
        (closes (main (scripted 3 64 4 64 pattern) () (fun _ => 0)).trace).count fd = 1) := by
  have ht : syscalls (main (scripted 3 64 4 64 pattern) () (fun _ => 0)).trace =
      [Event.sys_open filePath O_WRONLY 0o644 3,
       Event.sys_pwrite 3 data 64 0x2000 64,
       Event.sys_open read_filePath O_RDONLY 0o644 4,
       Event.sys_pread 4 64 0x2000 64] := by
    simp [main, scripted, syscalls, strlen_data, offset, filePath, read_filePath]
  rw [← closes_syscalls, ← opened_syscalls, ht]
  refine ⟨?_, ?_, ?_, ?_⟩
  · simp [main, scripted, strlen_data, offset, filePath, read_filePath]
  · simp [opened]
  · simp [closes]
  · intro h
    have h3 := h 3 (by simp [opened])
    simp [closes] at h3

/-- C3, amended: no descriptor is closed more than once and only descriptors
returned by a successful open are closed; when `pwrite` or `pread` reports failure
the descriptor it was called on is closed exactly once before `main` returns; a run
that returns 0 issues no `close`. -/
theorem closes_of_main {σ : Type} (sys : Sys σ) (s : σ) (u : Nat → Nat) :
    (∀ fd, (closes (main sys s u).trace).count fd ≤ 1) ∧
    (∀ fd ∈ closes (main sys s u).trace, fd ∈ opened (main sys s u).trace) ∧
    (∀ fd buf c o, Event.sys_pwrite fd buf c o (-1) ∈ (main sys s u).trace →
      (closes (main sys s u).trace).count fd = 1) ∧
    (∀ fd c o, Event.sys_pread fd c o (-1) ∈ (main sys s u).trace →
      (closes (main sys s u).trace).count fd = 1) ∧
    ((main sys s u).code = 0 → closes (main sys s u).trace = []) := by
  have hm : ∀ e : Event, e.failed = true → e ∈ (main sys s u).trace →
      e ∈ syscalls (main sys s u).trace := by
    intro e he hmem
    cases e <;> simp_all [syscalls]
  rw [← closes_syscalls, ← opened_syscalls]
  obtain ⟨ow, pw, orr, pr, hc⟩ := main_cases sys s u
  rcases hc with ⟨h1, hcode, ht⟩ | ⟨h1, h2, hcode, ht⟩ | ⟨h1, h2, h3, hcode, ht⟩ |
    ⟨h1, h2, h3, h4, hcode, ht⟩ | ⟨h1, h2, h3, h4, hcode, ht⟩
  all_goals
    refine ⟨?_, ?_, ?_, ?_, ?_⟩
    · intro fd
      rw [ht]
      simp [closes, List.count_cons]
      try split_ifs <;> simp
    · rw [ht]
      simp [closes, opened, *]
    · intro fd buf c o hmem
      have := hm _ (by simp) hmem
      rw [ht] at this ⊢
      simp_all [closes]
    · intro fd c o hmem
      have := hm _ (by simp) hmem
      rw [ht] at this ⊢
      simp_all [closes]
    · rw [ht, hcode]
      simp [closes]

/-- C3 amended, at the run where `pwrite` fails on descriptor 3: it is closed once. -/
theorem closes_of_main_witness :
    closes (main (scripted 3 (-1) 4 64 pattern) () (fun _ => 0)).trace = [3] ∧
    (closes (main (scripted 3 (-1) 4 64 pattern) () (fun _ => 0)).trace).count 3 = 1 :=
  ⟨by simp [main, scripted, closes, strlen_data, offset, filePath, read_filePath],
   (closes_of_main (scripted 3 (-1) 4 64 pattern) () (fun _ => 0)).2.2.1 3 data 64 0x2000
    (by simp [main, scripted, strlen_data, offset, filePath, read_filePath])⟩

/-! ## Round trip through a loopback store -/

theorem deposit_full (buf bytes : List Nat) (h : bytes.length = buf.length) :
    deposit buf bytes buf.length = bytes := by
  simp [deposit, ← h]

/-- C2: over every loopback store, whatever it held before and whatever the read
buffer held before, `main` ends with exactly the 64 pattern characters in
`read_data` (and returns 0). -/
theorem loopback_round_trip {β : Type} (st : Store β) (b : β) (k : Nat) (u : Nat → Nat) :
    (main (loopback st) (b, k) u).read_data = some pattern ∧
    (main (loopback st) (b, k) u).code = 0 := by
  have hd : data.take 64 = pattern := by
    rw [data, ← pattern_length, List.take_left]
  have hk : ∀ n : Nat, ¬ ((n : Int) = -1) := by omega
  have hg : st.get (st.put b 0x2000 pattern) 0x2000 64 = pattern := by
    have := st.get_put b 0x2000 pattern
    rwa [pattern_length] at this
  have hl : ((List.range read_data_size).map u).length = 64 := by simp [read_data_size]
  have hdep : deposit ((List.range read_data_size).map u) pattern 64 = pattern := by
    have := deposit_full ((List.range read_data_size).map u) pattern
      (by rw [pattern_length, hl])
    rwa [hl] at this
  unfold main
  simp only [strlen_data, offset, loopback, hd, hg, hdep]
  have hk1 : ¬ ((k : Int) + 1 = -1) := by omega
  simp [hk, hk1]

/-- C2 at the function store filled with 255, with next descriptor 3 and a read
buffer that held 170 in every byte. -/
theorem loopback_round_trip_witness :
    (main (loopback memStore) (fun _ => 255, 3) (fun _ => 170)).read_data = some pattern ∧
    (main (loopback memStore) (fun _ => 255, 3) (fun _ => 170)).code = 0 :=
  loopback_round_trip memStore (fun _ => 255) 3 (fun _ => 170)

/-! ## Accesses to `read_data` -/

theorem deposit_length (buf bytes : List Nat) (count : Nat) :
    (deposit buf bytes count).length = buf.length := by
  simp only [deposit, List.length_append, List.length_take, List.length_drop]
  omega

theorem strScan_pattern : strScan pattern 0 = List.range 65 := by
  rw [pattern_eq]; decide

/-- C4: on the run where all four calls succeed and `pread` fills the buffer with
the pattern, `read_data` holds 64 bytes, the `pread` destination stays below 64,
but the `%s` print reads index 64 and the print loop reads indices 64 to 127:
characters are fetched from outside the buffer. -/
theorem print_reads_past_read_data :
    (main (scripted 3 64 4 64 pattern) () (fun _ => 0)).code = 0 ∧
    (main (scripted 3 64 4 64 pattern) () (fun _ => 0)).read_data = some pattern ∧
    pattern.length = read_data_size ∧
    (Site.preadDst, 63) ∈ (main (scripted 3 64 4 64 pattern) () (fun _ => 0)).accesses ∧
    (Site.preadDst, 64) ∉ (main (scripted 3 64 4 64 pattern) () (fun _ => 0)).accesses ∧
    (Site.printStr, 64) ∈ (main (scripted 3 64 4 64 pattern) () (fun _ => 0)).accesses ∧
    (Site.printLoop, 64) ∈ (main (scripted 3 64 4 64 pattern) () (fun _ => 0)).accesses ∧
    (Site.printLoop, 127) ∈ (main (scripted 3 64 4 64 pattern) () (fun _ => 0)).accesses ∧
    Event.stdout "%c" [] [none] ∈ (main (scripted 3 64 4 64 pattern) () (fun _ => 0)).trace ∧
    ¬ (∀ a ∈ (main (scripted 3 64 4 64 pattern) () (fun _ => 0)).accesses,
        a.2 < read_data_size) := by
  have hl : ((List.range read_data_size).map fun _ => 0).length = 64 := by
    simp [read_data_size]
  have hdep : deposit ((List.range read_data_size).map fun _ => 0) pattern 64 = pattern := by
    have := deposit_full ((List.range read_data_size).map fun _ => 0) pattern
      (by rw [pattern_length, hl])
    rwa [hl] at this
  have hrun : (main (scripted 3 64 4 64 pattern) () (fun _ => 0)).accesses =
      (List.range 64).map (fun i => (Site.preadDst, i)) ++
      (List.range 65).map (fun i => (Site.printStr, i)) ++
      (List.range 128).map (fun i => (Site.printLoop, i)) := by
    unfold main
    simp only [strlen_data, offset, scripted, hdep, strScan_pattern]
    simp [paths_ne]
  have hnone : pattern.get? 64 = none := by
    rw [List.get?_eq_none]; rw [pattern_length]
  refine ⟨?_, ?_, ?_, ?_, ?_, ?_, ?_, ?_, ?_, ?_⟩
  · simp [main, scripted, paths_ne]
  · unfold main
    simp only [strlen_data, offset, scripted, hdep]
    simp [paths_ne]
  · rw [pattern_length]; rfl
  · rw [hrun]; simp
  · rw [hrun]; simp
  · rw [hrun]; simp
  · rw [hrun]; simp
  · rw [hrun]; simp
  · unfold main
    simp only [strlen_data, offset, scripted, hdep]
    simp [paths_ne]
    exact ⟨64, by omega, by simpa using hnone⟩
  · rw [hrun]
    intro h
    have := h (Site.printLoop, 127) (by simp)
    simp [read_data_size] at this

/-! ## Sizes of the two buffers -/

/-- C10, as stated, fails: the read buffer has 64 bytes and the length passed to
`pread` is `strlen(data)` = 64, so the buffer is not one byte shorter than that
length. -/
theorem read_buffer_not_shorter_than_request :
    Event.sys_pread 4 (strlen data) 0x2000 64 ∈
      (main (scripted 3 64 4 64 pattern) () (fun _ => 0)).trace ∧
    ((main (scripted 3 64 4 64 pattern) () (fun _ => 0)).read_data.map List.length
      = some read_data_size) ∧
    ¬ (read_data_size + 1 = strlen data) := by
  refine ⟨?_, ?_, ?_⟩
  · simp [main, scripted, strlen_data, offset, filePath, read_filePath]
  · simp [main, scripted, deposit_length, paths_ne]
  · rw [strlen_data]; decide

/-- C10, amended: `data` occupies 65 bytes, the 64 pattern characters (none of them
zero) followed by one zero byte, so `strlen(data)` = 64; the read buffer has exactly
as many bytes as the length `strlen(data)` passed to `pread`, which is one byte
fewer than `data` occupies.  In every run the `pread` request has that length and
`read_data` keeps that size. -/
theorem buffer_sizes {σ : Type} (sys : Sys σ) (s : σ) (u : Nat → Nat) :
    data.length = 65 ∧ data = pattern ++ [0] ∧ pattern.length = 64 ∧
    (∀ b ∈ pattern, b ≠ 0) ∧ strlen data = 64 ∧
    read_data_size = strlen data ∧ read_data_size + 1 = data.length ∧
    (∀ fd cnt off ret, Event.sys_pread fd cnt off ret ∈ (main sys s u).trace →
      cnt = read_data_size) ∧
    (∀ buf, (main sys s u).read_data = some buf → buf.length = read_data_size) := by
  refine ⟨data_length, ?_, pattern_length, ?_, strlen_data, ?_, ?_, ?_, ?_⟩
  · simp [data, data_size, pattern_length]
  · rw [pattern_eq]; decide
  · rw [strlen_data]; rfl
  · rw [data_length]; rfl
  · intro fd cnt off ret h
    have hr : Event.sys_pread fd cnt off ret ∈ syscalls (main sys s u).trace := by
      simp [syscalls, h]
    obtain ⟨ow, pw, orr, pr, hc⟩ := main_cases sys s u
    rcases hc with ⟨h1, hcode, ht⟩ | ⟨h1, h2, hcode, ht⟩ | ⟨h1, h2, h3, hcode, ht⟩ |
      ⟨h1, h2, h3, h4, hcode, ht⟩ | ⟨h1, h2, h3, h4, hcode, ht⟩ <;>
      rw [ht] at hr <;> simp at hr <;> simp [hr, read_data_size]
  · intro buf
    unfold main
    simp only []
    split_ifs <;> simp <;> rintro rfl <;> simp [deposit_length]

/-- C10 amended, at the run where all four calls succeed. -/
theorem buffer_sizes_witness :
    read_data_size = strlen data ∧ read_data_size + 1 = data.length ∧
    (main (scripted 3 64 4 64 pattern) () (fun _ => 0)).read_data.map List.length = some 64 :=
  ⟨(buffer_sizes (scripted 3 64 4 64 pattern) () (fun _ => 0)).2.2.2.2.2.1,
   (buffer_sizes (scripted 3 64 4 64 pattern) () (fun _ => 0)).2.2.2.2.2.2.1,
   by simp [main, scripted, deposit_length, read_data_size, paths_ne]⟩

end XdmaDriver
